import Mathlib

/-!
Shallow embedding of the fetch-receipt-processor service: the receipt data
model, the per-field JSON decoders, the structural receipt validator, the
in-memory receipt store, the submission handler, and the points calculator.

Modelling conventions:
* Go strings are modelled as `List Char` (one element per rune).  All text the
  field decoders admit is ASCII, where Go's byte length `len(s)` equals the
  UTF-8 length computed by `utf8Len`.
* Monetary amounts (`float32` in the source) are modelled as exact integer
  cents (`Int`).  Every amount entering the system is produced by
  `ReceiptAmount.UnmarshalJSON` from a string matching `\d+\.\d{2}`, a value
  of the form `n/100`; the comparisons the code performs on such values
  (equality with the integer truncation, `math.Mod _ 0.25`, and
  `math.Ceil (_ * 0.2)`) coincide with the exact-cents computations used here
  for all amounts where `float32` is exact on quarters.
* `time.Time` is modelled by the components the repository reads: year, month,
  day, hour and minute of the UTC calendar representation (`GoTime`).
-/

deriving instance DecidableEq for Except

namespace ReceiptProcessor

/-- Characters treated as whitespace by Go's strings.TrimSpace
(unicode.IsSpace), restricted to the Latin-1 range; the repository's field
patterns only admit ASCII whitespace. -/
def isGoSpace (c : Char) : Bool :=
  c = ' ' || c = '\t' || c = '\n' || c = '\u000B' || c = '\u000C' || c = '\r' ||
    c = '\u0085' || c = '\u00A0'

/-- strings.TrimSpace: remove leading and trailing whitespace. -/
def goTrimSpace (cs : List Char) : List Char :=
  ((cs.dropWhile isGoSpace).reverse.dropWhile isGoSpace).reverse

/-- Go's len() on a string counts bytes; on a rune list this is the sum of the
UTF-8 sizes (equal to the list length on ASCII text). -/
def utf8Len (cs : List Char) : Nat :=
  (cs.map Char.utf8Size).sum

/-- The components of a Go time.Time that the repository reads, in UTC:
Day(), Clock() hour, Before, IsZero. -/
structure GoTime where
  year : Nat
  month : Nat
  day : Nat
  hour : Nat
  minute : Nat
deriving DecidableEq

/-- time.Time.IsZero: the zero time is January 1, year 1, 00:00:00 UTC. -/
def GoTime.isZero (t : GoTime) : Bool :=
  decide (t = ⟨1, 1, 1, 0, 0⟩)

/-- time.Time.Before: chronological strict order; on UTC calendar components
this is the lexicographic order. -/
def GoTime.before (a b : GoTime) : Bool :=
  if a.year ≠ b.year then decide (a.year < b.year)
  else if a.month ≠ b.month then decide (a.month < b.month)
  else if a.day ≠ b.day then decide (a.day < b.day)
  else if a.hour ≠ b.hour then decide (a.hour < b.hour)
  else decide (a.minute < b.minute)

/-- internal/data.Item.  The ID/CreatedAt/UpdatedAt metadata fields are never
read by any modelled operation and are omitted.  Price is float32 in the
source, modelled as exact cents. -/
structure Item where
  ShortDescription : List Char
  Price : Int
deriving DecidableEq

/-- internal/data.Receipt.  CreatedAt/UpdatedAt are never read by any modelled
operation and are omitted.  Total is float32 in the source, modelled as exact
cents. -/
structure Receipt where
  ID : String
  Retailer : List Char
  PurchaseDate : GoTime
  PurchaseTime : GoTime
  Items : List Item
  Total : Int
deriving DecidableEq

/-! ## Field decoders (internal/data, UnmarshalJSON methods)

Each decoder receives the raw JSON value for its field.  `none` models a JSON
value that is not a quoted string, on which strconv.Unquote fails; `some s`
models a JSON string whose content is `s`. -/

/-- The error values declared in the decoders' file, plus `unquoteError` for
the raw strconv error that ReceiptAmount.UnmarshalJSON returns when the JSON
value is not a string.  Note the file declares no description-specific
error. -/
inductive FieldError where
  | invalidRetailerFormat
  | invalidPurchaseDateFormat
  | invalidPurchaseTimeFormat
  | invalidAmountFormat
  | unquoteError
deriving DecidableEq

/-- Go regexp \w: [0-9A-Za-z_]. -/
def isWordChar (c : Char) : Bool :=
  ('a' ≤ c && c ≤ 'z') || ('A' ≤ c && c ≤ 'Z') || ('0' ≤ c && c ≤ '9') || c = '_'

/-- Go regexp \s: [\t\n\f\r ]. -/
def isRegexSpace (c : Char) : Bool :=
  c = '\t' || c = '\n' || c = '\u000C' || c = '\r' || c = ' '

/-- retailerRX: one or more characters from [\w\s\-&]. -/
def retailerRXMatch (cs : List Char) : Bool :=
  !cs.isEmpty && cs.all (fun c => isWordChar c || isRegexSpace c || c = '-' || c = '&')

/-- shortDescriptionRX: one or more characters from [\w\s\-]. -/
def shortDescriptionRXMatch (cs : List Char) : Bool :=
  !cs.isEmpty && cs.all (fun c => isWordChar c || isRegexSpace c || c = '-')

/-- ReceiptRetailer.UnmarshalJSON: unquote, trim, match retailerRX, store the
trimmed value; every failure is ErrInvalidReceiptRetailerFormat. -/
def unmarshalRetailer (j : Option (List Char)) : Except FieldError (List Char) :=
  match j with
  | none => .error .invalidRetailerFormat
  | some s =>
    let t := goTrimSpace s
    if retailerRXMatch t then .ok (goTrimSpace t) else .error .invalidRetailerFormat

/-- ReceiptShortDescription.UnmarshalJSON: unquote, trim, match
shortDescriptionRX, store the trimmed value.  Both failure branches return
ErrInvalidReceiptRetailerFormat, the retailer's error value — the source
declares no description-specific error. -/
def unmarshalShortDescription (j : Option (List Char)) : Except FieldError (List Char) :=
  match j with
  | none => .error .invalidRetailerFormat
  | some s =>
    let t := goTrimSpace s
    if shortDescriptionRXMatch t then .ok (goTrimSpace t) else .error .invalidRetailerFormat

/-- Numeric value of an ASCII digit. -/
def digitVal (c : Char) : Nat := c.toNat - 48

/-- Value of a digit run, most significant first. -/
def digitsVal (cs : List Char) : Nat := cs.foldl (fun a c => a * 10 + digitVal c) 0

/-- The proleptic-Gregorian leap-year rule used by Go's time package. -/
def isLeapYear (y : Nat) : Bool := y % 4 = 0 && (y % 100 ≠ 0 || y % 400 = 0)

/-- Length of a month, as enforced by time.Parse's day-range check. -/
def daysInMonth (y m : Nat) : Nat :=
  if m = 2 then (if isLeapYear y then 29 else 28)
  else if m = 4 || m = 6 || m = 9 || m = 11 then 30
  else 31

/-- ReceiptPurchaseDate.UnmarshalJSON: unquote, trim, match dateRX
(`\d{4}-(0[1-9]|1[0-2])-(0[1-9]|[12]\d|3[01])`, i.e. month 01-12 and day
01-31 in two digits), then time.Parse "2006-01-02", which additionally
rejects a day beyond the month's length.  The parsed value is UTC midnight
of the date. -/
def unmarshalPurchaseDate (j : Option (List Char)) : Except FieldError GoTime :=
  match j with
  | none => .error .invalidPurchaseDateFormat
  | some s =>
    match goTrimSpace s with
    | [y1, y2, y3, y4, '-', n1, n2, '-', d1, d2] =>
      if [y1, y2, y3, y4, n1, n2, d1, d2].all Char.isDigit then
        let y := digitsVal [y1, y2, y3, y4]
        let n := digitsVal [n1, n2]
        let d := digitsVal [d1, d2]
        if 1 ≤ n ∧ n ≤ 12 ∧ 1 ≤ d ∧ d ≤ 31 then
          if d ≤ daysInMonth y n then .ok ⟨y, n, d, 0, 0⟩
          else .error .invalidPurchaseDateFormat
        else .error .invalidPurchaseDateFormat
      else .error .invalidPurchaseDateFormat
    | _ => .error .invalidPurchaseDateFormat

/-- ReceiptPurchaseTime.UnmarshalJSON: unquote, trim, match timeRX
(`(?:[01]\d|2[0-3]):[0-5]\d`), then time.Parse "15:04".  Components absent
from the layout default to January 1 of year 0. -/
def unmarshalPurchaseTime (j : Option (List Char)) : Except FieldError GoTime :=
  match j with
  | none => .error .invalidPurchaseTimeFormat
  | some s =>
    match goTrimSpace s with
    | [h1, h2, ':', n1, n2] =>
      if [h1, h2, n1, n2].all Char.isDigit then
        let h := digitsVal [h1, h2]
        let n := digitsVal [n1, n2]
        if h ≤ 23 ∧ n ≤ 59 then .ok ⟨0, 1, 1, h, n⟩
        else .error .invalidPurchaseTimeFormat
      else .error .invalidPurchaseTimeFormat
    | _ => .error .invalidPurchaseTimeFormat

/-- ReceiptAmount.UnmarshalJSON: unquote (a non-string value surfaces the raw
strconv error, not the amount error), trim, match amountRX `\d+\.\d{2}` (a
non-empty digit run, a dot, exactly two digits, no sign), then parse.  The
decimal value d+.ab is the exact cents value returned here. -/
def unmarshalAmount (j : Option (List Char)) : Except FieldError Int :=
  match j with
  | none => .error .unquoteError
  | some s =>
    let t := goTrimSpace s
    match t.takeWhile Char.isDigit, t.dropWhile Char.isDigit with
    | ds@(_ :: _), ['.', a, b] =>
      if a.isDigit ∧ b.isDigit then
        .ok ((digitsVal ds * 100 + digitVal a * 10 + digitVal b : Nat) : Int)
      else .error .invalidAmountFormat
    | _, _ => .error .invalidAmountFormat

/-! ## Points calculator (cmd/api, calculatePoints)

The source accumulates the seven contributions into one int64 in rule order;
each contribution is given its own definition below and `calculatePoints` is
their sum in that order. -/

/-- isAlphanumeric from the source: ASCII letter or digit. -/
def isAlphanumeric (c : Char) : Bool :=
  ('a' ≤ c && c ≤ 'z') || ('A' ≤ c && c ≤ 'Z') || ('0' ≤ c && c ≤ '9')

/-- Rule 1: one point per alphanumeric rune of the trimmed retailer name. -/
def retailerPoints (retailer : List Char) : Int :=
  (((goTrimSpace retailer).filter isAlphanumeric).length : Int)

/-- Rule 2: 50 points if the total is a round dollar amount
(Total == float32(int(Total)); on exact cents: divisible by 100). -/
def roundDollarPoints (total : Int) : Int :=
  if total % 100 = 0 then 50 else 0

/-- Rule 3: 25 points if the total is a multiple of 0.25
(math.Mod(Total, 0.25) == 0; on exact cents: divisible by 25). -/
def quarterPoints (total : Int) : Int :=
  if total % 25 = 0 then 25 else 0

/-- Rule 4: int64((len(items) / 2) * 5), integer division. -/
def pairPoints (items : List Item) : Int :=
  ((items.length / 2) * 5 : Nat)

/-- math.Ceil(price * 0.2) on an exact cents value p: ⌈p / 500⌉, which for
floor division is (p + 499) / 500. -/
def ceilFifth (p : Int) : Int := (p + 499) / 500

/-- Rule 5, one item: if the byte length of the trimmed description is a
multiple of 3, add ceil(price * 0.2). -/
def itemDescPoints (it : Item) : Int :=
  if utf8Len (goTrimSpace it.ShortDescription) % 3 = 0 then ceilFifth it.Price else 0

/-- Rule 5: the loop over the receipt's items. -/
def descPointsSum (items : List Item) : Int :=
  (items.map itemDescPoints).sum

/-- Rule 6: 6 points if the day of the purchase date is odd. -/
def oddDayPoints (d : GoTime) : Int := if d.day % 2 ≠ 0 then 6 else 0

/-- Rule 7: 10 points if the purchase hour h satisfies 14 ≤ h < 16. -/
def afternoonPoints (t : GoTime) : Int :=
  if 14 ≤ t.hour ∧ t.hour < 16 then 10 else 0

/-- calculatePoints: sum of the seven rule contributions in source order. -/
def calculatePoints (rc : Receipt) : Int :=
  retailerPoints rc.Retailer + roundDollarPoints rc.Total + quarterPoints rc.Total +
    pairPoints rc.Items + descPointsSum rc.Items + oddDayPoints rc.PurchaseDate +
    afternoonPoints rc.PurchaseTime

/-! ## Structural validator (internal/data.ValidateReceipt) -/

/-- Modelled from the spec: the internal/validator package is not under src.
Per §4.3, every check is evaluated and each failing check records one named
failure in an accumulated error set; Valid means the set is empty. -/
structure Validator where
  errors : List (String × String)
deriving DecidableEq

/-- Modelled from the spec: a fresh validator with an empty error set. -/
def Validator.empty : Validator := ⟨[]⟩

/-- Modelled from the spec: Check records the named failure when ok is
false. -/
def Validator.check (v : Validator) (ok : Bool) (key msg : String) : Validator :=
  if ok then v else ⟨v.errors ++ [(key, msg)]⟩

/-- Modelled from the spec: Valid holds when no check has failed. -/
def Validator.valid (v : Validator) : Bool := v.errors.isEmpty

/-- The two per-item checks of ValidateReceipt's loop. -/
def itemChecks (v : Validator) (it : Item) : Validator :=
  (v.check (decide (it.ShortDescription ≠ [])) "shortDescription" "must be provided").check
    (decide (¬(it.Price < 0))) "price" "must not be negative"

/-- ValidateReceipt, with time.Now().UTC() passed explicitly as `now`.  The
source's `rc.Items != nil` check and its `len(rc.Items) >= 1` check collapse
to the same condition on a `List` model, which cannot distinguish a nil slice
from an empty one; the validity outcome is unchanged. -/
def validateReceipt (now : GoTime) (rc : Receipt) : Validator :=
  rc.Items.foldl itemChecks
    ((((((((Validator.empty.check
      (decide (rc.Retailer ≠ [])) "retailer" "must be provided").check
      (decide (utf8Len rc.Retailer ≤ 500)) "retailer" "must not be more than 500 bytes long").check
      (!rc.PurchaseDate.isZero) "purchaseDate" "must be provided").check
      (rc.PurchaseDate.before now) "purchaseDate" "must not be in the future").check
      (!rc.PurchaseTime.isZero) "purchaseTime" "must be provided").check
      (decide (rc.Items ≠ [])) "items" "must be provided").check
      (decide (1 ≤ rc.Items.length)) "items" "must contain at least 1 item").check
      (decide (¬(rc.Total < 0))) "total" "must not be negative")

/-! ## In-memory store (internal/data.ReceiptModel) -/

inductive StoreError where
  | recordNotFound
  | duplicateRecord
deriving DecidableEq

/-- ReceiptModel's map[string]*Receipt, modelled as an association list keyed
by the receipt ID (Insert maintains at most one entry per key). -/
structure ReceiptModel where
  data : List (String × Receipt)
deriving DecidableEq

/-- ReceiptModel.Get: ErrRecordNotFound when the ID is absent, else the stored
receipt. -/
def ReceiptModel.get (m : ReceiptModel) (id : String) : Except StoreError Receipt :=
  match m.data.find? (fun p => p.1 == id) with
  | some p => .ok p.2
  | none => .error .recordNotFound

/-- ReceiptModel.Insert: ErrDuplicateRecord when the ID already exists, else
store the receipt. -/
def ReceiptModel.insert (m : ReceiptModel) (rc : Receipt) : Except StoreError ReceiptModel :=
  if (m.data.find? (fun p => p.1 == rc.ID)).isSome then .error .duplicateRecord
  else .ok ⟨(rc.ID, rc) :: m.data⟩

/-! ## Submission handler (cmd/api.processReceiptHandler) -/

/-- The handler's decoded input struct.  Price and Total are pointers in the
source, so that a key absent from the payload decodes to nil: `none` here.
The string fields hold the values their UnmarshalJSON decoders produced. -/
structure ItemInput where
  shortDescription : List Char
  price : Option Int
deriving DecidableEq

structure ReceiptInput where
  retailer : List Char
  purchaseDate : GoTime
  purchaseTime : GoTime
  items : List ItemInput
  total : Option Int
deriving DecidableEq

/-- The handler's outcome: 400 invalid receipt, 500 on a store error, or 200
with the new ID and the updated store. -/
inductive ProcessResult where
  | badRequest
  | serverError
  | ok (id : String) (model : ReceiptModel)
deriving DecidableEq

/-- processReceiptHandler after a successful readJSON, with the generated
UUID passed as freshID and time.Now().UTC() as now: reject a nil Total, then
reject any nil item price, assemble the Receipt, validate it, insert it, and
answer with the ID.  (In the guarded branch every price is some; getD 0 is
never the nil case.) -/
def processReceipt (now : GoTime) (model : ReceiptModel) (freshID : String)
    (input : ReceiptInput) : ProcessResult :=
  match input.total with
  | none => .badRequest
  | some total =>
    if input.items.any (fun it => it.price.isNone) then .badRequest
    else
      let receipt : Receipt :=
        { ID := freshID
          Retailer := input.retailer
          PurchaseDate := input.purchaseDate
          PurchaseTime := input.purchaseTime
          Items := input.items.map (fun it =>
            { ShortDescription := it.shortDescription, Price := it.price.getD 0 })
          Total := total }
      if (validateReceipt now receipt).valid then
        match model.insert receipt with
        | .ok m => .ok freshID m
        | .error _ => .serverError
      else .badRequest

/-! ## Concrete inputs for the worked scenario -/

/-- The decoded submission of the spec's first scenario, fields as the
UnmarshalJSON decoders return them (descriptions already trimmed). -/
def targetInput : ReceiptInput :=
  { retailer := "Target".toList
    purchaseDate := ⟨2022, 1, 1, 0, 0⟩
    purchaseTime := ⟨0, 1, 1, 13, 1⟩
    items := [⟨"Mountain Dew 12PK".toList, some 649⟩,
      ⟨"Emils Cheese Pizza".toList, some 1225⟩,
      ⟨"Knorr Creamy Chicken".toList, some 126⟩,
      ⟨"Doritos Nacho Cheese".toList, some 335⟩,
      ⟨"Klarbrunn 12-PK 12 FL OZ".toList, some 1200⟩]
    total := some 3535 }

/-- The receipt the handler assembles from `targetInput` under ID "rid-1". -/
def targetReceipt : Receipt :=
  { ID := "rid-1"
    Retailer := "Target".toList
    PurchaseDate := ⟨2022, 1, 1, 0, 0⟩
    PurchaseTime := ⟨0, 1, 1, 13, 1⟩
    Items := [⟨"Mountain Dew 12PK".toList, 649⟩, ⟨"Emils Cheese Pizza".toList, 1225⟩,
      ⟨"Knorr Creamy Chicken".toList, 126⟩, ⟨"Doritos Nacho Cheese".toList, 335⟩,
      ⟨"Klarbrunn 12-PK 12 FL OZ".toList, 1200⟩]
    Total := 3535 }

/-- C1: every field of the Target scenario parses to the stated value, the
submission succeeds against an empty store — returning the fresh identifier
and storing the receipt — and calculatePoints on the stored receipt is
exactly 28. -/
theorem claim_C1 :
    unmarshalRetailer (some "Target".toList) = .ok "Target".toList ∧
    unmarshalPurchaseDate (some "2022-01-01".toList) = .ok ⟨2022, 1, 1, 0, 0⟩ ∧
    unmarshalPurchaseTime (some "13:01".toList) = .ok ⟨0, 1, 1, 13, 1⟩ ∧
    unmarshalShortDescription (some "Mountain Dew 12PK".toList) =
      .ok "Mountain Dew 12PK".toList ∧
    unmarshalShortDescription (some "Emils Cheese Pizza".toList) =
      .ok "Emils Cheese Pizza".toList ∧
    unmarshalShortDescription (some "Knorr Creamy Chicken".toList) =
      .ok "Knorr Creamy Chicken".toList ∧
    unmarshalShortDescription (some "Doritos Nacho Cheese".toList) =
      .ok "Doritos Nacho Cheese".toList ∧
    unmarshalShortDescription (some "   Klarbrunn 12-PK 12 FL OZ  ".toList) =
      .ok "Klarbrunn 12-PK 12 FL OZ".toList ∧
    unmarshalAmount (some "6.49".toList) = .ok 649 ∧
    unmarshalAmount (some "12.25".toList) = .ok 1225 ∧
    unmarshalAmount (some "1.26".toList) = .ok 126 ∧
    unmarshalAmount (some "3.35".toList) = .ok 335 ∧
    unmarshalAmount (some "12.00".toList) = .ok 1200 ∧
    unmarshalAmount (some "35.35".toList) = .ok 3535 ∧
    processReceipt ⟨2025, 10, 11, 0, 0⟩ ⟨[]⟩ "rid-1" targetInput =
      .ok "rid-1" ⟨[("rid-1", targetReceipt)]⟩ ∧
    ReceiptModel.get ⟨[("rid-1", targetReceipt)]⟩ "rid-1" = .ok targetReceipt ∧
    calculatePoints targetReceipt = 28 := by
  decide

/-- A receipt with the whole-dollar total 5.00, for instantiating C2. -/
def c2Receipt : Receipt :=
  { ID := "r2", Retailer := "Shop".toList, PurchaseDate := ⟨2022, 1, 2, 0, 0⟩,
    PurchaseTime := ⟨0, 1, 1, 9, 0⟩, Items := [⟨"Milk".toList, 250⟩], Total := 500 }

/-- C2: a total with zero fractional part (cents divisible by 100) makes the
round-dollar rule and the quarter-multiple rule both fire, together
contributing 75 = 50 + 25 to the score. -/
theorem claim_C2 (rc : Receipt) (h : rc.Total % 100 = 0) :
    roundDollarPoints rc.Total = 50 ∧ quarterPoints rc.Total = 25 ∧
    calculatePoints rc =
      75 + (retailerPoints rc.Retailer + pairPoints rc.Items + descPointsSum rc.Items +
        oddDayPoints rc.PurchaseDate + afternoonPoints rc.PurchaseTime) := by
  have h25 : rc.Total % 25 = 0 := by omega
  refine ⟨by simp [roundDollarPoints, h], by simp [quarterPoints, h25], ?_⟩
  simp [calculatePoints, roundDollarPoints, quarterPoints, h, h25]
  ring

/-- C2 witness: the rule contributions evaluated on a concrete whole-dollar
receipt. -/
theorem claim_C2_witness :
    roundDollarPoints c2Receipt.Total = 50 ∧ quarterPoints c2Receipt.Total = 25 ∧
    calculatePoints c2Receipt =
      75 + (retailerPoints c2Receipt.Retailer + pairPoints c2Receipt.Items +
        descPointsSum c2Receipt.Items + oddDayPoints c2Receipt.PurchaseDate +
        afternoonPoints c2Receipt.PurchaseTime) :=
  claim_C2 c2Receipt (by decide)

/-- A receipt with five items, for instantiating C5. -/
def c5Receipt : Receipt :=
  { ID := "r5", Retailer := "Shop".toList, PurchaseDate := ⟨2022, 1, 2, 0, 0⟩,
    PurchaseTime := ⟨0, 1, 1, 9, 0⟩,
    Items := [⟨"a".toList, 100⟩, ⟨"b".toList, 100⟩, ⟨"c".toList, 100⟩,
      ⟨"d".toList, 100⟩, ⟨"e".toList, 100⟩], Total := 500 }

/-- C5: the item-pair rule contributes exactly 5 * floor(n / 2) to the score,
and for an odd item count this differs from 5 * ceil(n / 2): the odd item out
earns nothing. -/
theorem claim_C5 (rc : Receipt) :
    calculatePoints rc =
      retailerPoints rc.Retailer + roundDollarPoints rc.Total + quarterPoints rc.Total +
        pairPoints rc.Items + descPointsSum rc.Items + oddDayPoints rc.PurchaseDate +
        afternoonPoints rc.PurchaseTime ∧
    pairPoints rc.Items = 5 * ((rc.Items.length : Int) / 2) ∧
    (rc.Items.length % 2 = 1 →
      pairPoints rc.Items ≠ 5 * (((rc.Items.length : Int) + 1) / 2)) := by
  refine ⟨rfl, ?_, ?_⟩
  · simp only [pairPoints]
    omega
  · intro h
    simp only [pairPoints]
    omega

/-- C5 witness: on a five-item receipt the pair rule yields 5 * 2, not
5 * 3. -/
theorem claim_C5_witness :
    pairPoints c5Receipt.Items = 5 * ((c5Receipt.Items.length : Int) / 2) ∧
    pairPoints c5Receipt.Items ≠ 5 * (((c5Receipt.Items.length : Int) + 1) / 2) :=
  ⟨(claim_C5 c5Receipt).2.1, (claim_C5 c5Receipt).2.2 (by decide)⟩

/-- C6: the afternoon rule contributes 10 exactly when the purchase hour h
satisfies 14 ≤ h < 16 — in particular 10 points at hour 14 and nothing from
hour 16 on — and the score decomposes with that contribution. -/
theorem claim_C6 (t : GoTime) :
    (afternoonPoints t = 10 ↔ (14 ≤ t.hour ∧ t.hour < 16)) ∧
    (t.hour = 14 → afternoonPoints t = 10) ∧
    (16 ≤ t.hour → afternoonPoints t = 0) ∧
    (∀ rc : Receipt, rc.PurchaseTime = t →
      calculatePoints rc =
        retailerPoints rc.Retailer + roundDollarPoints rc.Total + quarterPoints rc.Total +
          pairPoints rc.Items + descPointsSum rc.Items + oddDayPoints rc.PurchaseDate +
          afternoonPoints t) := by
  refine ⟨?_, ?_, ?_, ?_⟩
  · by_cases h : 14 ≤ t.hour ∧ t.hour < 16 <;> simp [afternoonPoints, h]
  · intro h
    simp [afternoonPoints, h]
  · intro h
    have hn : ¬(14 ≤ t.hour ∧ t.hour < 16) := by omega
    simp [afternoonPoints, hn]
  · intro rc h
    rw [calculatePoints, h]

/-- C6 witness: a 14:00 purchase time earns the 10 points. -/
theorem claim_C6_witness : afternoonPoints ⟨0, 1, 1, 14, 0⟩ = 10 :=
  (claim_C6 ⟨0, 1, 1, 14, 0⟩).2.1 rfl

/-- A well-formed submission whose total and single item price are the
explicit value "0.00". -/
def c7ZeroInput : ReceiptInput :=
  { retailer := "Shop".toList, purchaseDate := ⟨2022, 1, 1, 0, 0⟩,
    purchaseTime := ⟨0, 1, 1, 13, 1⟩, items := [⟨"Milk".toList, some 0⟩],
    total := some 0 }

/-- The receipt the handler assembles from `c7ZeroInput` under ID "id-7". -/
def c7Stored : Receipt :=
  { ID := "id-7", Retailer := "Shop".toList, PurchaseDate := ⟨2022, 1, 1, 0, 0⟩,
    PurchaseTime := ⟨0, 1, 1, 13, 1⟩, Items := [⟨"Milk".toList, 0⟩], Total := 0 }

/-- A submission identical to `c7ZeroInput` except that the total key is
absent. -/
def c7NoTotal : ReceiptInput :=
  { retailer := "Shop".toList, purchaseDate := ⟨2022, 1, 1, 0, 0⟩,
    purchaseTime := ⟨0, 1, 1, 13, 1⟩, items := [⟨"Milk".toList, some 100⟩],
    total := none }

/-- C7: a submission without a total key, or with any item lacking a price
key, is rejected as an invalid receipt regardless of every other field; an
explicit zero value for both is accepted. -/
theorem claim_C7 :
    (∀ (now : GoTime) (m : ReceiptModel) (fid : String) (input : ReceiptInput),
      input.total = none → processReceipt now m fid input = .badRequest) ∧
    (∀ (now : GoTime) (m : ReceiptModel) (fid : String) (input : ReceiptInput)
      (it : ItemInput), it ∈ input.items → it.price = none →
      processReceipt now m fid input = .badRequest) ∧
    processReceipt ⟨2025, 1, 1, 0, 0⟩ ⟨[]⟩ "id-7" c7ZeroInput =
      .ok "id-7" ⟨[("id-7", c7Stored)]⟩ := by
  refine ⟨?_, ?_, by decide⟩
  · intro now m fid input h
    unfold processReceipt
    rw [h]
  · intro now m fid input it hmem hp
    unfold processReceipt
    cases htot : input.total with
    | none => rfl
    | some total =>
      have hany : input.items.any (fun x => x.price.isNone) = true := by
        rw [List.any_eq_true]
        exact ⟨it, hmem, by simp [hp]⟩
      simp [hany]

/-- C7 witness: the missing-total rejection evaluated on a concrete
submission. -/
theorem claim_C7_witness :
    processReceipt ⟨2025, 1, 1, 0, 0⟩ ⟨[]⟩ "w7" c7NoTotal = .badRequest :=
  claim_C7.1 ⟨2025, 1, 1, 0, 0⟩ ⟨[]⟩ "w7" c7NoTotal rfl

/-- A stored receipt for instantiating C8. -/
def c8Receipt : Receipt :=
  { ID := "r8", Retailer := "Shop".toList, PurchaseDate := ⟨2022, 1, 2, 0, 0⟩,
    PurchaseTime := ⟨0, 1, 1, 9, 0⟩, Items := [⟨"Milk".toList, 250⟩], Total := 250 }

/-- C8: whenever Insert succeeds, Get on the receipt's ID against the
resulting store returns the stored receipt — never RecordNotFound. -/
theorem claim_C8 (m m2 : ReceiptModel) (rc : Receipt)
    (h : m.insert rc = .ok m2) : m2.get rc.ID = .ok rc := by
  unfold ReceiptModel.insert at h
  split at h
  · exact absurd h (by simp)
  · injection h with h2
    subst h2
    simp [ReceiptModel.get, List.find?]

/-- C8 witness: inserting into the empty store and reading the ID back. -/
theorem claim_C8_witness :
    ReceiptModel.get ⟨[("r8", c8Receipt)]⟩ "r8" = .ok c8Receipt :=
  claim_C8 ⟨[]⟩ ⟨[("r8", c8Receipt)]⟩ c8Receipt (by decide)

/-- An item whose description trims to the empty string. -/
def c9ItemA : Item := ⟨"   ".toList, 1226⟩

/-- A second item, untouched by C9's substitution. -/
def c9ItemB : Item := ⟨"Bread".toList, 100⟩

/-- C9: an item whose description trims to the empty string still earns the
description-length points: its marginal contribution to calculatePoints is
exactly ceil(price * 0.2), because the trimmed length 0 passes the
multiple-of-3 test. -/
theorem claim_C9 (id : String) (ret : List Char) (d t : GoTime) (total : Int)
    (pre post : List Item) (it : Item)
    (h : goTrimSpace it.ShortDescription = []) :
    calculatePoints ⟨id, ret, d, t, pre ++ it :: post, total⟩ =
      calculatePoints ⟨id, ret, d, t, pre ++ { it with Price := 0 } :: post, total⟩ +
        ceilFifth it.Price := by
  simp [calculatePoints, descPointsSum, pairPoints, itemDescPoints, h, utf8Len, ceilFifth]
  ring

/-- C9 witness: the whitespace-description item's marginal contribution on a
concrete receipt is ceil(12.26 * 0.2) = 3. -/
theorem claim_C9_witness :
    calculatePoints ⟨"r9", "Shop".toList, ⟨2022, 1, 2, 0, 0⟩, ⟨0, 1, 1, 9, 0⟩,
        [] ++ c9ItemA :: [c9ItemB], 100⟩ =
      calculatePoints ⟨"r9", "Shop".toList, ⟨2022, 1, 2, 0, 0⟩, ⟨0, 1, 1, 9, 0⟩,
        [] ++ { c9ItemA with Price := 0 } :: [c9ItemB], 100⟩ + ceilFifth c9ItemA.Price :=
  claim_C9 "r9" "Shop".toList ⟨2022, 1, 2, 0, 0⟩ ⟨0, 1, 1, 9, 0⟩ 100 [] [c9ItemB]
    c9ItemA (by decide)

/-! ## Validator error-set characterization -/

/-- Membership in the error set after one check: either the failure was
already present, or this check failed and contributed it. -/
theorem check_mem_iff (v : Validator) (ok : Bool) (k' m' k m : String) :
    (k, m) ∈ (v.check ok k' m').errors ↔
      (k, m) ∈ v.errors ∨ (ok = false ∧ k = k' ∧ m = m') := by
  cases ok <;> simp [Validator.check, Prod.ext_iff]

/-- Membership in the error set after one item's two checks. -/
theorem itemChecks_mem_iff (v : Validator) (it : Item) (k m : String) :
    (k, m) ∈ (itemChecks v it).errors ↔
      (k, m) ∈ v.errors ∨
        (it.ShortDescription = [] ∧ k = "shortDescription" ∧ m = "must be provided") ∨
        (it.Price < 0 ∧ k = "price" ∧ m = "must not be negative") := by
  simp only [itemChecks, check_mem_iff, decide_eq_false_iff_not, not_not, ne_eq]
  tauto

/-- Membership in the error set after the validator's loop over the items. -/
theorem foldl_itemChecks_mem_iff (items : List Item) (v : Validator) (k m : String) :
    (k, m) ∈ (items.foldl itemChecks v).errors ↔
      (k, m) ∈ v.errors ∨ ∃ it ∈ items,
        (it.ShortDescription = [] ∧ k = "shortDescription" ∧ m = "must be provided") ∨
        (it.Price < 0 ∧ k = "price" ∧ m = "must not be negative") := by
  induction items generalizing v with
  | nil => simp
  | cons a rest ih =>
    simp only [List.foldl_cons, ih, itemChecks_mem_iff, List.mem_cons]
    constructor
    · rintro ((hv | ha | ha) | ⟨it, hit, hq⟩)
      · exact Or.inl hv
      · exact Or.inr ⟨a, Or.inl rfl, Or.inl ha⟩
      · exact Or.inr ⟨a, Or.inl rfl, Or.inr ha⟩
      · exact Or.inr ⟨it, Or.inr hit, hq⟩
    · rintro (hv | ⟨it, hita | hit, hq⟩)
      · exact Or.inl (Or.inl hv)
      · subst hita
        rcases hq with hq | hq
        · exact Or.inl (Or.inr (Or.inl hq))
        · exact Or.inl (Or.inr (Or.inr hq))
      · exact Or.inr ⟨it, hit, hq⟩

/-- A receipt whose purchase date equals the processing instant, for C3. -/
def c3Receipt : Receipt :=
  { ID := "r3", Retailer := "Target".toList, PurchaseDate := ⟨2022, 3, 5, 10, 30⟩,
    PurchaseTime := ⟨0, 1, 1, 13, 1⟩, Items := [⟨"Milk".toList, 250⟩], Total := 250 }

/-- C3 counterexample: with the processing time equal to the purchase date —
so the date is not later than the processing time — the validator still
records the future-date failure and the receipt is invalid, refuting the
claim that an equal date is accepted. -/
theorem claim_C3_counterex :
    c3Receipt.PurchaseDate = ⟨2022, 3, 5, 10, 30⟩ ∧
    ("purchaseDate", "must not be in the future") ∈
      (validateReceipt ⟨2022, 3, 5, 10, 30⟩ c3Receipt).errors ∧
    (validateReceipt ⟨2022, 3, 5, 10, 30⟩ c3Receipt).valid = false := by
  refine ⟨rfl, ?_, by decide⟩
  decide

/-- C3 (amended): the validator's future-date check passes exactly when the
purchase date is strictly earlier than the processing time; an equal or later
date records the future-date failure. -/
theorem claim_C3 (now : GoTime) (rc : Receipt) :
    ("purchaseDate", "must not be in the future") ∈ (validateReceipt now rc).errors ↔
      rc.PurchaseDate.before now = false := by
  unfold validateReceipt
  rw [foldl_itemChecks_mem_iff]
  simp [check_mem_iff, Validator.empty]

/-- C3 witness: the amended equivalence evaluated at a concrete processing
time later than the purchase date. -/
theorem claim_C3_witness :
    (("purchaseDate", "must not be in the future") ∈
        (validateReceipt ⟨2023, 1, 1, 0, 0⟩ c3Receipt).errors ↔
      c3Receipt.PurchaseDate.before ⟨2023, 1, 1, 0, 0⟩ = false) :=
  claim_C3 ⟨2023, 1, 1, 0, 0⟩ c3Receipt

/-- C4 counterexample: a shortDescription value failing its pattern yields
ErrInvalidReceiptRetailerFormat — the very error the retailer decoder
produces — so no description-specific error distinct from the retailer's
exists. -/
theorem claim_C4_counterex :
    unmarshalShortDescription (some "@@@".toList) = .error .invalidRetailerFormat ∧
    unmarshalRetailer (some "@@@".toList) = .error .invalidRetailerFormat ∧
    ¬∃ e, unmarshalShortDescription (some "@@@".toList) = .error e ∧
      e ≠ FieldError.invalidRetailerFormat := by
  refine ⟨by decide, by decide, ?_⟩
  rintro ⟨e, he, hne⟩
  rw [show unmarshalShortDescription (some "@@@".toList) =
    .error FieldError.invalidRetailerFormat from by decide] at he
  injection he with h2
  exact hne h2.symm

/-- C4 (amended): every shortDescription parse failure — a non-string JSON
value or a pattern mismatch — produces ErrInvalidReceiptRetailerFormat, the
retailer field's error value, which the decoders' file reuses for the
description field. -/
theorem claim_C4 (j : Option (List Char)) (e : FieldError)
    (h : unmarshalShortDescription j = .error e) : e = .invalidRetailerFormat := by
  cases j with
  | none =>
    unfold unmarshalShortDescription at h
    injection h with h2
    exact h2.symm
  | some s =>
    unfold unmarshalShortDescription at h
    dsimp only at h
    split at h
    · exact absurd h (by simp)
    · injection h with h2
      exact h2.symm

/-- C4 witness: the amended statement evaluated on a concrete failing
description. -/
theorem claim_C4_witness :
    unmarshalShortDescription (some ['#']) = .error FieldError.invalidRetailerFormat ∧
    FieldError.invalidRetailerFormat = FieldError.invalidRetailerFormat :=
  ⟨by decide, claim_C4 (some ['#']) FieldError.invalidRetailerFormat (by decide)⟩

/-- Every successfully parsed amount is built from an unsigned digit string
and is therefore non-negative. -/
theorem unmarshalAmount_nonneg (j : Option (List Char)) (c : Int)
    (h : unmarshalAmount j = .ok c) : 0 ≤ c := by
  cases j with
  | none => exact absurd h (by simp [unmarshalAmount])
  | some s =>
    unfold unmarshalAmount at h
    dsimp only at h
    split at h
    · split at h
      · injection h with h2
        exact h2 ▸ Int.natCast_nonneg _
      · exact absurd h (by simp)
    · exact absurd h (by simp)

/-- A receipt whose amounts all come from successful parses, for C10. -/
def c10Receipt : Receipt :=
  { ID := "r10", Retailer := "Shop".toList, PurchaseDate := ⟨2022, 1, 2, 0, 0⟩,
    PurchaseTime := ⟨0, 1, 1, 9, 0⟩, Items := [⟨"Milk".toList, 125⟩], Total := 350 }

/-- C10: amounts parse only from unsigned strings of the form digits.dd, so
any receipt whose total and item prices come from successful parses has only
non-negative amounts, and the validator's two negative-amount failure
branches are unreachable for it. -/
theorem claim_C10 (now : GoTime) (rc : Receipt)
    (ht : ∃ j, unmarshalAmount j = .ok rc.Total)
    (hp : ∀ it ∈ rc.Items, ∃ j, unmarshalAmount j = .ok it.Price) :
    0 ≤ rc.Total ∧ (∀ it ∈ rc.Items, 0 ≤ it.Price) ∧
    ("total", "must not be negative") ∉ (validateReceipt now rc).errors ∧
    ("price", "must not be negative") ∉ (validateReceipt now rc).errors := by
  obtain ⟨jt, hjt⟩ := ht
  have h0 : 0 ≤ rc.Total := unmarshalAmount_nonneg jt rc.Total hjt
  have h1 : ∀ it ∈ rc.Items, 0 ≤ it.Price := by
    intro it hit
    obtain ⟨j, hj⟩ := hp it hit
    exact unmarshalAmount_nonneg j it.Price hj
  refine ⟨h0, h1, ?_, ?_⟩
  · intro hmem
    unfold validateReceipt at hmem
    rw [foldl_itemChecks_mem_iff] at hmem
    simp [check_mem_iff, Validator.empty] at hmem
    omega
  · intro hmem
    unfold validateReceipt at hmem
    rw [foldl_itemChecks_mem_iff] at hmem
    simp [check_mem_iff, Validator.empty] at hmem
    obtain ⟨it, hit, hneg⟩ := hmem
    exact absurd (h1 it hit) (by omega)

/-- C10 witness: the conclusion evaluated on a concrete receipt whose total
parses from "3.50" and whose single price parses from "1.25". -/
theorem claim_C10_witness :
    0 ≤ c10Receipt.Total ∧ (∀ it ∈ c10Receipt.Items, 0 ≤ it.Price) ∧
    ("total", "must not be negative") ∉
      (validateReceipt ⟨2022, 5, 5, 0, 0⟩ c10Receipt).errors ∧
    ("price", "must not be negative") ∉
      (validateReceipt ⟨2022, 5, 5, 0, 0⟩ c10Receipt).errors :=
  claim_C10 ⟨2022, 5, 5, 0, 0⟩ c10Receipt ⟨some "3.50".toList, by decide⟩
    (by
      intro it hit
      simp only [c10Receipt, List.mem_singleton] at hit
      subst hit
      exact ⟨some "1.25".toList, by decide⟩)

end ReceiptProcessor
